import Mathlib

/- Verification of the ZeroTier One node core (Node.cpp): the netconf
service response bridge, the local control client, the startup sequence
and the periodic supervisor loop.  Subsystems whose code lives outside
Node.cpp (Switch, Topology, SysEnv, NodeConfig, Dictionary, libc) appear
as oracle parameters or are modelled from the specification, as noted in
the individual doc comments. -/

namespace ZTNode

/-- Truncating 64-bit subtraction, as C++ `uint64_t` subtraction `a - b`. -/
def sub64 (a b : Nat) : Nat := (2 ^ 64 + a % 2 ^ 64 - b % 2 ^ 64) % 2 ^ 64

theorem sub64_of_le (a b : Nat) (hb : b ≤ a) (ha : a < 2 ^ 64) :
    sub64 a b = a - b := by
  have hb64 : b < 2 ^ 64 := lt_of_le_of_lt hb ha
  unfold sub64
  rw [Nat.mod_eq_of_lt ha, Nat.mod_eq_of_lt hb64,
    Nat.add_sub_assoc hb, Nat.add_mod_left, Nat.mod_eq_of_lt]
  exact lt_of_le_of_lt (Nat.sub_le a b) ha

/-! ## Netconf service response bridge (`_netconfServiceMessageHandler`) -/

/-- Modelled from the spec: the netconf helper message envelope is a
dictionary of string → string (`Dictionary` lives outside Node.cpp).
Strings stand for byte strings; values are looked up by key. -/
def Dict := List (String × String)

/-- Modelled from the spec: `Dictionary::get(key)` returns the value and
treats a missing key as a parse failure (an exception, hence `Except`). -/
def dictGet (d : Dict) (k : String) : Except Unit String :=
  match d.lookup k with
  | some v => Except.ok v
  | none => Except.error ()

/-- `Dictionary::contains(key)`: membership test, never fails. -/
def dictContains (d : Dict) (k : String) : Bool :=
  (d.lookup k).isSome

/-- Value of one hexadecimal digit character, if any. -/
def hexDigitVal (c : Char) : Option Nat :=
  if '0' ≤ c ∧ c ≤ '9' then some (c.toNat - '0'.toNat)
  else if 'a' ≤ c ∧ c ≤ 'f' then some (c.toNat - 'a'.toNat + 10)
  else if 'A' ≤ c ∧ c ≤ 'F' then some (c.toNat - 'A'.toNat + 10)
  else none

/-- Accumulate leading hexadecimal digits, stopping at the first
non-digit, as `strtoull` does. -/
def hexAccum : List Char → Nat → Nat
  | [], acc => acc
  | c :: rest, acc =>
    match hexDigitVal c with
    | some v => hexAccum rest (acc * 16 + v)
    | none => acc

/-- Modelled from the spec: `strtoull(s, 0, 16)` (libc, outside the
repository) parsing a hex u64 — skip leading whitespace, an optional
`0x`/`0X` prefix, then leading hex digits; result truncated to 64 bits. -/
def parseHexU64 (s : String) : Nat :=
  let cs := s.data.dropWhile
    (fun c => c == ' ' || c == '\t' || c == '\n' || c == '\r' || c == '\x0b' || c == '\x0c')
  let cs := match cs with
    | '0' :: x :: rest => if x == 'x' || x == 'X' then rest else '0' :: x :: rest
    | l => l
  hexAccum cs 0 % 2 ^ 64

/-- Wire packet verbs used by the handler (`Packet::Verb`). -/
inductive Verb
  | VERB_ERROR
  | VERB_OK
  | VERB_HELLO
  | VERB_NETWORK_CONFIG_REQUEST
  deriving DecidableEq, Repr

/-- Wire packet error codes used by the handler (`Packet::ErrorCode`). -/
inductive ErrorCode
  | ERROR_NOT_FOUND
  | ERROR_INVALID_REQUEST
  deriving DecidableEq, Repr

/-- One field appended to a packet, in order: `outp.append(...)`. -/
inductive PktField
  | verbF (v : Verb)
  | errF (e : ErrorCode)
  | u16F (v : Nat)
  | u64F (v : Nat)
  | bytesF (b : String)
  deriving DecidableEq, Repr

/-- An outbound wire packet as constructed by
`Packet outp(dest, source, verb)` followed by appends. -/
structure WirePacket where
  dest : Nat
  source : Nat
  verb : Verb
  payload : List PktField
  deriving DecidableEq, Repr

/-- A local Network as seen through `nc->network(id)`; the handler only
uses `network->id()`. -/
structure NetworkObj where
  id : Nat
  deriving DecidableEq, Repr

/-- Environment of the netconf message handler: the runtime pieces that
live outside Node.cpp.  `networks` is `nc->network` (falsy shared
pointer = `none`); `parseAddr` is the `Address(const char*)` constructor
(truthy = nonzero); `identityAddress` is `identity.address()`. -/
structure NetconfEnv where
  networks : Nat → Option NetworkObj
  parseAddr : String → Nat
  identityAddress : Nat

/-- Body of the `try` block of `_netconfServiceMessageHandler`
(Node.cpp lines 203-236): an `Except.error` is an exception reaching the
catch clauses.  Returns the list of packets handed to `_r->sw->send`. -/
def netconfHandlerCore (E : NetconfEnv) (msg : Dict) : Except Unit (List WirePacket) := do
  let type ← dictGet msg "type"
  if type = "netconf-response" then do
    let inRePacketId := parseHexU64 (← dictGet msg "requestId")
    let network := E.networks (parseHexU64 (← dictGet msg "nwid"))
    let peerAddress := E.parseAddr (← dictGet msg "peer")
    match network with
    | some nw =>
      if peerAddress ≠ 0 then
        if dictContains msg "error" then do
          let err ← dictGet msg "error"
          let errCode := if err = "NOT_FOUND" then ErrorCode.ERROR_NOT_FOUND
            else ErrorCode.ERROR_INVALID_REQUEST
          pure [{ dest := peerAddress, source := E.identityAddress, verb := Verb.VERB_ERROR,
                  payload := [PktField.verbF Verb.VERB_NETWORK_CONFIG_REQUEST,
                              PktField.u64F inRePacketId,
                              PktField.errF errCode,
                              PktField.u64F nw.id] }]
        else if dictContains msg "netconf" then do
          let netconf ← dictGet msg "netconf"
          if netconf.length < 2048 then
            pure [{ dest := peerAddress, source := E.identityAddress, verb := Verb.VERB_OK,
                    payload := [PktField.verbF Verb.VERB_NETWORK_CONFIG_REQUEST,
                                PktField.u64F inRePacketId,
                                PktField.u64F nw.id,
                                PktField.u16F netconf.length,
                                PktField.bytesF netconf] }]
          else pure []
        else pure []
      else pure []
    | none => pure []
  else pure []

/-- `_netconfServiceMessageHandler`: the catch clauses log and drop, so
an exception yields no packet. -/
def netconfHandler (E : NetconfEnv) (msg : Dict) : List WirePacket :=
  match netconfHandlerCore E msg with
  | Except.ok pkts => pkts
  | Except.error _ => []

/-- Claim C1: for every netconf helper message of type `netconf-response`
whose nwid resolves to a known Network and whose peer parses to a truthy
Address, if the message contains an `error` key then the handler emits
exactly one VERB_ERROR packet to that peer containing, in order, the verb
NETWORK_CONFIG_REQUEST, the in-reply-to packet ID parsed as hex from
`requestId`, the error code (ERROR_NOT_FOUND for value `NOT_FOUND`, else
ERROR_INVALID_REQUEST), and the network ID. -/
theorem C1_netconf_error_packet (E : NetconfEnv) (msg : Dict)
    (rid nws ps err : String) (nw : NetworkObj)
    (htype : msg.lookup "type" = some "netconf-response")
    (hrid : msg.lookup "requestId" = some rid)
    (hnwid : msg.lookup "nwid" = some nws)
    (hnet : E.networks (parseHexU64 nws) = some nw)
    (hpeer : msg.lookup "peer" = some ps)
    (htruthy : E.parseAddr ps ≠ 0)
    (herr : msg.lookup "error" = some err) :
    netconfHandler E msg =
      [{ dest := E.parseAddr ps, source := E.identityAddress, verb := Verb.VERB_ERROR,
         payload := [PktField.verbF Verb.VERB_NETWORK_CONFIG_REQUEST,
                     PktField.u64F (parseHexU64 rid),
                     PktField.errF (if err = "NOT_FOUND" then ErrorCode.ERROR_NOT_FOUND
                       else ErrorCode.ERROR_INVALID_REQUEST),
                     PktField.u64F nw.id] }] := by
  simp [netconfHandler, netconfHandlerCore, dictGet, dictContains, htype, hrid, hnwid,
    hnet, hpeer, htruthy, herr, Bind.bind, Except.bind, pure, Except.pure]

/-- Concrete run of `C1_netconf_error_packet` on the spec scenario:
requestId 0x1a, nwid 0xdeadbeef, error NOT_FOUND. -/
theorem C1_netconf_error_packet_witness :
    netconfHandler
      { networks := fun n => if n = 0xdeadbeef then some { id := 0xdeadbeef } else none,
        parseAddr := fun _ => 0x99, identityAddress := 7 }
      [("type", "netconf-response"), ("requestId", "0x1a"), ("nwid", "0xdeadbeef"),
       ("peer", "aabbcc"), ("error", "NOT_FOUND")] =
      [{ dest := 0x99, source := 7, verb := Verb.VERB_ERROR,
         payload := [PktField.verbF Verb.VERB_NETWORK_CONFIG_REQUEST,
                     PktField.u64F 26,
                     PktField.errF ErrorCode.ERROR_NOT_FOUND,
                     PktField.u64F 0xdeadbeef] }] := by
  rw [C1_netconf_error_packet _ _ "0x1a" "0xdeadbeef" "aabbcc" "NOT_FOUND" { id := 0xdeadbeef }
    (by decide) (by decide) (by decide) (by decide) (by decide) (by decide) (by decide)]
  decide

/-- Claim C2: for every netconf helper message of type `netconf-response`
with known network, truthy peer, no `error` key and a `netconf` key, a
payload shorter than 2048 bytes yields exactly one VERB_OK packet with the
verb, the in-reply-to ID, the network ID, a 16-bit length, and the payload
bytes, while a payload of 2048 bytes or more yields no packet at all. -/
theorem C2_netconf_ok_packet (E : NetconfEnv) (msg : Dict)
    (rid nws ps ncp : String) (nw : NetworkObj)
    (htype : msg.lookup "type" = some "netconf-response")
    (hrid : msg.lookup "requestId" = some rid)
    (hnwid : msg.lookup "nwid" = some nws)
    (hnet : E.networks (parseHexU64 nws) = some nw)
    (hpeer : msg.lookup "peer" = some ps)
    (htruthy : E.parseAddr ps ≠ 0)
    (hnoerr : msg.lookup "error" = none)
    (hnc : msg.lookup "netconf" = some ncp) :
    netconfHandler E msg =
      if ncp.length < 2048 then
        [{ dest := E.parseAddr ps, source := E.identityAddress, verb := Verb.VERB_OK,
           payload := [PktField.verbF Verb.VERB_NETWORK_CONFIG_REQUEST,
                       PktField.u64F (parseHexU64 rid),
                       PktField.u64F nw.id,
                       PktField.u16F ncp.length,
                       PktField.bytesF ncp] }]
      else [] := by
  by_cases hlen : ncp.length < 2048 <;>
    simp [netconfHandler, netconfHandlerCore, dictGet, dictContains, htype, hrid, hnwid,
      hnet, hpeer, htruthy, hnoerr, hnc, hlen, Bind.bind, Except.bind, pure, Except.pure]

/-- Concrete run of `C2_netconf_ok_packet`: a 3-byte payload is emitted as
a VERB_OK packet with u16 length 3; a 2048-byte payload is dropped. -/
theorem C2_netconf_ok_packet_witness :
    netconfHandler
      { networks := fun n => if n = 0xdeadbeef then some { id := 0xdeadbeef } else none,
        parseAddr := fun _ => 0x99, identityAddress := 7 }
      [("type", "netconf-response"), ("requestId", "0x1a"), ("nwid", "0xdeadbeef"),
       ("peer", "aabbcc"), ("netconf", "abc")] =
      [{ dest := 0x99, source := 7, verb := Verb.VERB_OK,
         payload := [PktField.verbF Verb.VERB_NETWORK_CONFIG_REQUEST,
                     PktField.u64F 26,
                     PktField.u64F 0xdeadbeef,
                     PktField.u16F 3,
                     PktField.bytesF "abc"] }] ∧
    netconfHandler
      { networks := fun n => if n = 0xdeadbeef then some { id := 0xdeadbeef } else none,
        parseAddr := fun _ => 0x99, identityAddress := 7 }
      [("type", "netconf-response"), ("requestId", "0x1a"), ("nwid", "0xdeadbeef"),
       ("peer", "aabbcc"), ("netconf", String.mk (List.replicate 2048 'a'))] = [] := by
  constructor
  · rw [C2_netconf_ok_packet _ _ "0x1a" "0xdeadbeef" "aabbcc" "abc" { id := 0xdeadbeef }
      (by decide) (by decide) (by decide) (by decide) (by decide) (by decide) (by decide)
      (by decide)]
    decide
  · rw [C2_netconf_ok_packet
      { networks := fun n => if n = 0xdeadbeef then some { id := 0xdeadbeef } else none,
        parseAddr := fun _ => 0x99, identityAddress := 7 }
      [("type", "netconf-response"), ("requestId", "0x1a"), ("nwid", "0xdeadbeef"),
       ("peer", "aabbcc"), ("netconf", String.mk (List.replicate 2048 'a'))]
      "0x1a" "0xdeadbeef" "aabbcc"
      (String.mk (List.replicate 2048 'a')) { id := 0xdeadbeef }
      rfl rfl rfl (by decide) rfl (by decide) rfl rfl]
    have hlen : (String.mk (List.replicate 2048 'a')).length = 2048 := by
      show (List.replicate 2048 'a').length = 2048
      exact List.length_replicate 2048 'a'
    rw [hlen]
    norm_num

/-! ## Local control client (`Node::LocalClient`) -/

/-- State of a constructed `LocalClient`: `impl` is the `_impl` pointer,
`none` when every socket bind attempt failed (the constructor deleted the
impl and left `_impl = 0`). -/
structure LocalClient where
  impl : Option Unit
  deriving DecidableEq

/-- `Node::LocalClient::LocalClient` (Node.cpp lines 106-136): try up to
5000 random ephemeral UDP ports; if one bind succeeds the impl is kept,
otherwise `_impl` stays null.  `bindAttempts i` tells whether the i-th
`new UdpSocket(...)` attempt succeeds (bind outcomes live in the OS). -/
def localClientNew (bindAttempts : Nat → Bool) : LocalClient :=
  { impl := if (List.range 5000).any bindAttempts then some () else none }

/-- `Node::LocalClient::send` (Node.cpp lines 148-172).  `r` is the draw
from `rand()` (cast to `uint32_t`); `sendBody` is the outcome of the
`try` body building and sending the control packets (an `Except.error`
is an exception caught by the handler, which returns 0). -/
def localClientSend (lc : LocalClient) (r : Nat) (sendBody : Except Unit Unit) : Nat :=
  match lc.impl with
  | none => 0
  | some _ =>
    let convId := r % 2 ^ 32
    let convId := if convId = 0 then 1 else convId
    match sendBody with
    | Except.ok _ => convId
    | Except.error _ => 0

/-- Claim C9: a `LocalClient` whose constructor failed to bind any UDP
socket has `send` return 0 (and `send` is total, never raising); a
`LocalClient` whose constructor succeeded and whose `send` body does not
throw returns a nonzero conversation ID, with a zero `rand()` draw
replaced by 1. -/
theorem C9_localclient_send (bindAttempts : Nat → Bool) (r : Nat)
    (sendBody : Except Unit Unit) :
    ((List.range 5000).any bindAttempts = false →
      localClientSend (localClientNew bindAttempts) r sendBody = 0) ∧
    ((List.range 5000).any bindAttempts = true → sendBody = Except.ok () →
      localClientSend (localClientNew bindAttempts) r sendBody ≠ 0 ∧
      (r % 2 ^ 32 = 0 →
        localClientSend (localClientNew bindAttempts) r sendBody = 1)) := by
  constructor
  · intro hfail
    simp [localClientNew, localClientSend, hfail]
  · intro hok hsend
    subst hsend
    have hlc : localClientNew bindAttempts = { impl := some () } := by
      simp [localClientNew, hok]
    have heval : localClientSend { impl := some () } r (Except.ok ()) =
        (if r % 2 ^ 32 = 0 then 1 else r % 2 ^ 32) := rfl
    rw [hlc, heval]
    by_cases hz : r % 2 ^ 32 = 0
    · rw [if_pos hz]
      exact ⟨one_ne_zero, fun _ => rfl⟩
    · rw [if_neg hz]
      exact ⟨hz, fun h => absurd h hz⟩

/-- Concrete runs of `C9_localclient_send`: a client with no bound socket
returns 0; a bound client with a zero random draw returns 1 (nonzero). -/
theorem C9_localclient_send_witness :
    localClientSend (localClientNew (fun _ => false)) 7 (Except.ok ()) = 0 ∧
    localClientSend (localClientNew (fun _ => true)) 0 (Except.ok ()) = 1 := by
  constructor
  · exact (C9_localclient_send (fun _ => false) 7 (Except.ok ())).1 (by simp)
  · exact ((C9_localclient_send (fun _ => true) 0 (Except.ok ())).2
      (List.any_eq_true.mpr ⟨0, by simp, rfl⟩) rfl).2 rfl

/-! ## Supervisor main loop (`Node::run`, lines 407-551) -/

/-- Modelled from the spec: the timing constants of Constants.hpp are not
part of the given sources, so they stay symbolic fields. -/
structure Consts where
  sleepWakeDetectionThreshold : Nat
  sleepWakeSettleTime : Nat
  networkFingerprintCheckDelay : Nat
  multicastLocalPollPeriod : Nat
  multicastLikeAnnounceAllPeriod : Nat
  pingCheckDelay : Nat
  peerDirectPingDelay : Nat
  dbCleanPeriod : Nat
  minServiceLoopInterval : Nat
  defaultUdpPort : Nat

/-- Observable action performed during one loop iteration. -/
inductive Event
  | sleep (ms : Nat)
  | whack
  | announce (m : List (Nat × List Nat))
  | hello (addr : Nat)
  | firewallOpener (addr : Nat)
  | wait (ms : Nat)
  | logErr
  deriving DecidableEq, Repr

/-- The mutable locals of the main loop (lines 408-415). -/
structure LoopState where
  lastPingCheck : Nat
  lastClean : Nat
  lastNetworkFingerprintCheck : Nat
  lastAutoconfigureCheck : Nat
  networkConfigurationFingerprint : Nat
  lastMulticastCheck : Nat
  lastMulticastAnnounceAll : Nat
  lastDelayDelta : Int
  deriving DecidableEq, Repr

/-- One joined network as the multicast stage observes it: its id, the
outcome of `updateMulticastGroups()` (which may throw), and its current
`multicastGroups()`. -/
structure NetworkSnap where
  id : Nat
  update : Except Unit Bool
  groups : List Nat

/-- Oracle inputs of one loop iteration: the clock sample and the outcome
of every subsystem call the iteration makes (subsystem code lives outside
Node.cpp; `Except.error` marks a call that throws). -/
structure TickEnv where
  now : Nat
  fp : Except Unit Nat
  whack : Except Unit Unit
  networks : List NetworkSnap
  announceRes : Except Unit Unit
  amSupernode : Bool
  supernodePeers : List (Nat × Nat)
  activeDirectPeers : Except Unit (List Nat)
  needPing : Except Unit (List Nat)
  needFirewallOpener : Except Unit (List Nat)
  helloRes : Nat → Except Unit Unit
  firewallRes : Nat → Except Unit Unit
  cleanTopology : Except Unit Unit
  cleanNetworks : Except Unit Unit
  doTimerTasks : Except Unit Nat
  elapsedMs : Nat

/-- Sleep/wake detection (lines 425-432): on a long delay delta, zero the
fingerprint and multicast timers, set `pingAll`, and sleep to settle.
Nothing in this stage can throw. -/
def sleepWakeStage (C : Consts) (st : LoopState) : LoopState × Bool × List Event :=
  if (C.sleepWakeDetectionThreshold : Int) ≤ st.lastDelayDelta then
    ({ st with lastNetworkFingerprintCheck := 0, lastMulticastCheck := 0 }, true,
      [Event.sleep C.sleepWakeSettleTime])
  else (st, false, [])

/-- Network fingerprint check (lines 436-447).  This stage has no
try/catch of its own: a throw from `getNetworkConfigurationFingerprint`
or `whackAllTaps` propagates (`Except.error`). -/
def fingerprintStage (C : Consts) (E : TickEnv) (st : LoopState) (pingAll : Bool) :
    Except Unit (LoopState × Bool × List Event) :=
  if C.networkFingerprintCheckDelay ≤ sub64 E.now st.lastNetworkFingerprintCheck then
    match E.fp with
    | Except.error e => Except.error e
    | Except.ok fp =>
      if fp ≠ st.networkConfigurationFingerprint then
        match E.whack with
        | Except.error e => Except.error e
        | Except.ok _ =>
          Except.ok ({ st with lastNetworkFingerprintCheck := E.now,
                               networkConfigurationFingerprint := fp,
                               lastAutoconfigureCheck := 0,
                               lastMulticastCheck := 0 }, true, [Event.whack])
      else Except.ok ({ st with lastNetworkFingerprintCheck := E.now }, pingAll, [])
  else Except.ok (st, pingAll, [])

/-- The network walk of the multicast stage (lines 455-462): each network
whose `updateMulticastGroups()` returned true — or every network when
`announceAll` — is put into the map with its current groups; a throwing
`updateMulticastGroups()` aborts the walk. -/
def collectToAnnounce (announceAll : Bool) : List NetworkSnap → Except Unit (List (Nat × List Nat))
  | [] => Except.ok []
  | nw :: rest =>
    match nw.update with
    | Except.error e => Except.error e
    | Except.ok changed =>
      match collectToAnnounce announceAll rest with
      | Except.error e => Except.error e
      | Except.ok tail =>
        Except.ok (if changed || announceAll then (nw.id, nw.groups) :: tail else tail)

/-- Multicast subscription check (lines 451-479).  The body is inside a
try/catch, so a throw is logged and the iteration continues;
`lastMulticastAnnounceAll` is stamped only after a nonempty announce when
`announceAll` held. -/
def multicastStage (C : Consts) (E : TickEnv) (st : LoopState) : LoopState × List Event :=
  if C.multicastLocalPollPeriod ≤ sub64 E.now st.lastMulticastCheck then
    let st1 := { st with lastMulticastCheck := E.now }
    let announceAll :=
      decide (C.multicastLikeAnnounceAllPeriod ≤ sub64 E.now st.lastMulticastAnnounceAll)
    match collectToAnnounce announceAll E.networks with
    | Except.error _ => (st1, [Event.logErr])
    | Except.ok toAnnounce =>
      if toAnnounce.isEmpty then (st1, [])
      else
        match E.announceRes with
        | Except.error _ => (st1, [Event.logErr])
        | Except.ok _ =>
          ((if announceAll then { st1 with lastMulticastAnnounceAll := E.now } else st1),
            [Event.announce toAnnounce])
  else (st, [])

/-- HELLO loop of the supernode branch (lines 487-491): sends are not
individually guarded, so a throw aborts the remaining sends and reaches
the stage-level catch. -/
def sendHellosSN (hr : Nat → Except Unit Unit) : List Nat → List Event × Bool
  | [] => ([], false)
  | a :: rest =>
    match hr a with
    | Except.ok _ =>
      let (es, threw) := sendHellosSN hr rest
      (Event.hello a :: es, threw)
    | Except.error _ => ([], true)

/-- One `sendHELLO` wrapped in its per-peer try/catch (lines 502-510). -/
def helloCaught (hr : Nat → Except Unit Unit) (a : Nat) : Event :=
  match hr a with
  | Except.ok _ => Event.hello a
  | Except.error _ => Event.logErr

/-- One `sendFirewallOpener` wrapped in its per-peer try/catch
(lines 512-520). -/
def fwCaught (fr : Nat → Except Unit Unit) (a : Nat) : Event :=
  match fr a with
  | Except.ok _ => Event.firewallOpener a
  | Except.error _ => Event.logErr

/-- Ping cycle (lines 481-527), entirely inside a stage-level try/catch.
A supernode pings supernode peers whose last direct send is older than the
direct-ping delay; otherwise, `pingAll` pings every peer with an active
direct path, else the peers needing a ping and a firewall opener. -/
def pingStage (C : Consts) (E : TickEnv) (st : LoopState) (pingAll : Bool) :
    LoopState × List Event :=
  if C.pingCheckDelay ≤ sub64 E.now st.lastPingCheck then
    let st1 := { st with lastPingCheck := E.now }
    if E.amSupernode then
      let (es, threw) := sendHellosSN E.helloRes
        ((E.supernodePeers.filter
          (fun p => C.peerDirectPingDelay < sub64 E.now p.2)).map Prod.fst)
      (st1, if threw then es ++ [Event.logErr] else es)
    else
      match (if pingAll then E.activeDirectPeers else E.needPing) with
      | Except.error _ => (st1, [Event.logErr])
      | Except.ok needPingL =>
        match (if pingAll then Except.ok [] else E.needFirewallOpener) with
        | Except.error _ => (st1, [Event.logErr])
        | Except.ok needFwL =>
          (st1, needPingL.map (helloCaught E.helloRes) ++ needFwL.map (fwCaught E.firewallRes))
  else (st, [])

/-- Database cleanup (lines 529-533).  No try/catch of its own: a throw
from `topology->clean()` or `cleanAllNetworks()` propagates. -/
def cleanStage (C : Consts) (E : TickEnv) (st : LoopState) : Except Unit LoopState :=
  if C.dbCleanPeriod ≤ sub64 E.now st.lastClean then
    match E.cleanTopology with
    | Except.error e => Except.error e
    | Except.ok _ =>
      match E.cleanNetworks with
      | Except.error e => Except.error e
      | Except.ok _ => Except.ok { st with lastClean := E.now }
  else Except.ok st

/-- Timer-task wait (lines 535-544), inside a try/catch: on success the
loop waits `min(minServiceLoopInterval, doTimerTasks())` and records the
delay delta; a throw skips the wait and is logged. -/
def waitStage (C : Consts) (E : TickEnv) (st : LoopState) : LoopState × List Event :=
  match E.doTimerTasks with
  | Except.ok d =>
    let delay := min C.minServiceLoopInterval d
    ({ st with lastDelayDelta := (E.elapsedMs : Int) - (delay : Int) },
      [Event.wait delay])
  | Except.error _ => (st, [Event.logErr])

/-- One iteration of the main while loop (lines 419-545), stages in
program order; an `Except.error` is an exception escaping the loop body. -/
def tick (C : Consts) (E : TickEnv) (st : LoopState) : Except Unit (LoopState × List Event) :=
  let (st1, pingAll1, e1) := sleepWakeStage C st
  match fingerprintStage C E st1 pingAll1 with
  | Except.error e => Except.error e
  | Except.ok (st2, pingAll2, e2) =>
    let (st3, e3) := multicastStage C E st2
    let (st4, e4) := pingStage C E st3 pingAll2
    match cleanStage C E st4 with
    | Except.error e => Except.error e
    | Except.ok st5 =>
      let (st6, e6) := waitStage C E st5
      Except.ok (st6, e1 ++ e2 ++ e3 ++ e4 ++ e6)

/-- The main loop run over a list of per-iteration environments (the
iterations executed before `terminateNow` is observed). -/
def ticks (C : Consts) : List TickEnv → LoopState → Except Unit (LoopState × List Event)
  | [], st => Except.ok (st, [])
  | E :: rest, st =>
    match tick C E st with
    | Except.error e => Except.error e
    | Except.ok (st1, evs) =>
      match ticks C rest st1 with
      | Except.error e => Except.error e
      | Except.ok (st2, evs2) => Except.ok (st2, evs ++ evs2)

/-- `Node::ReasonForTermination`. -/
inductive ReasonForTermination
  | NODE_RUNNING
  | NODE_NORMAL_TERMINATION
  | NODE_UNRECOVERABLE_ERROR
  deriving DecidableEq, Repr

/-- Outcome of the try block around the while loop (lines 407-551): an
exception escaping an iteration hits the catch at line 546 and `run`
returns UNRECOVERABLE_ERROR; otherwise the loop exits normally and `run`
returns NORMAL_TERMINATION (line 550). -/
def loopOutcome (C : Consts) (envs : List TickEnv) (st : LoopState) : ReasonForTermination :=
  match ticks C envs st with
  | Except.ok _ => ReasonForTermination.NODE_NORMAL_TERMINATION
  | Except.error _ => ReasonForTermination.NODE_UNRECOVERABLE_ERROR

/-- True iff the modelled subsystem call returned without throwing. -/
def okB {α : Type} : Except Unit α → Bool
  | Except.ok _ => true
  | Except.error _ => false

theorem okB_iff {α : Type} (e : Except Unit α) : okB e = true ↔ ∃ v, e = Except.ok v := by
  cases e <;> simp [okB]

theorem fingerprintStage_ok (C : Consts) (E : TickEnv) (st : LoopState) (pingAll : Bool)
    (hfp : okB E.fp = true) (hw : okB E.whack = true) :
    ∃ r, fingerprintStage C E st pingAll = Except.ok r := by
  obtain ⟨v, hv⟩ := (okB_iff _).mp hfp
  obtain ⟨w, hw2⟩ := (okB_iff _).mp hw
  simp only [fingerprintStage, hv, hw2]
  split
  · split
    · exact ⟨_, rfl⟩
    · exact ⟨_, rfl⟩
  · exact ⟨_, rfl⟩

theorem cleanStage_ok (C : Consts) (E : TickEnv) (st : LoopState)
    (hct : okB E.cleanTopology = true) (hcn : okB E.cleanNetworks = true) :
    ∃ r, cleanStage C E st = Except.ok r := by
  obtain ⟨v, hv⟩ := (okB_iff _).mp hct
  obtain ⟨w, hw⟩ := (okB_iff _).mp hcn
  simp only [cleanStage, hv, hw]
  split
  · exact ⟨_, rfl⟩
  · exact ⟨_, rfl⟩

theorem tick_ok (C : Consts) (E : TickEnv) (st : LoopState)
    (hfp : okB E.fp = true) (hw : okB E.whack = true)
    (hct : okB E.cleanTopology = true) (hcn : okB E.cleanNetworks = true) :
    ∃ r, tick C E st = Except.ok r := by
  rcases hsw : sleepWakeStage C st with ⟨st1, pingAll1, e1⟩
  obtain ⟨⟨st2, pingAll2, e2⟩, hfs⟩ := fingerprintStage_ok C E st1 pingAll1 hfp hw
  rcases hmc : multicastStage C E st2 with ⟨st3, e3⟩
  rcases hps : pingStage C E st3 pingAll2 with ⟨st4, e4⟩
  obtain ⟨st5, hcl⟩ := cleanStage_ok C E st4 hct hcn
  rcases hws : waitStage C E st5 with ⟨st6, e6⟩
  exact ⟨(st6, e1 ++ e2 ++ e3 ++ e4 ++ e6), by
    simp only [tick, hsw, hfs, hmc, hps, hcl, hws]⟩

/-- Counterexample to claim C3: a single iteration in which only
`topology->clean()` throws (every other subsystem call succeeds) makes
`run()` return UNRECOVERABLE_ERROR, because the cleanup stage
(lines 529-533) has no try/catch of its own — contradicting the claim
that an exception in any stage is caught and the loop continues. -/
theorem C3_counterexample :
    loopOutcome
      { sleepWakeDetectionThreshold := 2000, sleepWakeSettleTime := 5000,
        networkFingerprintCheckDelay := 5000, multicastLocalPollPeriod := 10000,
        multicastLikeAnnounceAllPeriod := 120000, pingCheckDelay := 7000,
        peerDirectPingDelay := 10000, dbCleanPeriod := 300000,
        minServiceLoopInterval := 100, defaultUdpPort := 9993 }
      [{ now := 1000000, fp := Except.ok 1, whack := Except.ok (), networks := [],
         announceRes := Except.ok (), amSupernode := false, supernodePeers := [],
         activeDirectPeers := Except.ok [], needPing := Except.ok [],
         needFirewallOpener := Except.ok [], helloRes := fun _ => Except.ok (),
         firewallRes := fun _ => Except.ok (), cleanTopology := Except.error (),
         cleanNetworks := Except.ok (), doTimerTasks := Except.ok 100, elapsedMs := 100 }]
      { lastPingCheck := 0, lastClean := 0, lastNetworkFingerprintCheck := 0,
        lastAutoconfigureCheck := 0, networkConfigurationFingerprint := 1,
        lastMulticastCheck := 0, lastMulticastAnnounceAll := 0, lastDelayDelta := 0 } =
      ReasonForTermination.NODE_UNRECOVERABLE_ERROR := by
  decide

/-- Claim C3 (amended): exceptions raised inside the multicast-check
body, the ping cycle (including individual HELLO and firewall-opener
sends) and the timer-task wait are caught and logged and the loop
proceeds; but the sleep/wake, fingerprint-check and cleanup stages have
no per-stage catch, so as long as the fingerprint recomputation,
`whackAllTaps`, `topology->clean()` and `cleanAllNetworks()` do not
throw, the loop never exits with UNRECOVERABLE_ERROR, whatever the other
subsystem calls do. -/
theorem C3_guarded_stage_exceptions (C : Consts) (envs : List TickEnv) (st : LoopState)
    (h : ∀ E ∈ envs, okB E.fp = true ∧ okB E.whack = true ∧
      okB E.cleanTopology = true ∧ okB E.cleanNetworks = true) :
    loopOutcome C envs st = ReasonForTermination.NODE_NORMAL_TERMINATION := by
  suffices hs : ∃ r, ticks C envs st = Except.ok r by
    obtain ⟨r, hr⟩ := hs
    simp [loopOutcome, hr]
  induction envs generalizing st with
  | nil => exact ⟨(st, []), rfl⟩
  | cons E rest ih =>
    obtain ⟨hfp, hw, hct, hcn⟩ := h E (List.mem_cons_self E rest)
    obtain ⟨⟨st1, evs⟩, ht⟩ := tick_ok C E st hfp hw hct hcn
    obtain ⟨⟨st2, evs2⟩, hts⟩ := ih st1 (fun F hF => h F (List.mem_cons_of_mem E hF))
    exact ⟨(st2, evs ++ evs2), by simp only [ticks, ht, hts]⟩

/-- Concrete run of `C3_guarded_stage_exceptions`: in an iteration where
`updateMulticastGroups`, the announce, every HELLO, every firewall opener
and `doTimerTasks` all throw, the loop still terminates normally. -/
theorem C3_guarded_stage_exceptions_witness :
    loopOutcome
      { sleepWakeDetectionThreshold := 2000, sleepWakeSettleTime := 5000,
        networkFingerprintCheckDelay := 5000, multicastLocalPollPeriod := 10000,
        multicastLikeAnnounceAllPeriod := 120000, pingCheckDelay := 7000,
        peerDirectPingDelay := 10000, dbCleanPeriod := 300000,
        minServiceLoopInterval := 100, defaultUdpPort := 9993 }
      [{ now := 1000000, fp := Except.ok 1, whack := Except.ok (),
         networks := [{ id := 5, update := Except.error (), groups := [9] }],
         announceRes := Except.error (), amSupernode := false,
         supernodePeers := [], activeDirectPeers := Except.error (),
         needPing := Except.error (), needFirewallOpener := Except.error (),
         helloRes := fun _ => Except.error (), firewallRes := fun _ => Except.error (),
         cleanTopology := Except.ok (), cleanNetworks := Except.ok (),
         doTimerTasks := Except.error (), elapsedMs := 100 }]
      { lastPingCheck := 0, lastClean := 0, lastNetworkFingerprintCheck := 0,
        lastAutoconfigureCheck := 0, networkConfigurationFingerprint := 1,
        lastMulticastCheck := 0, lastMulticastAnnounceAll := 0, lastDelayDelta := 0 } =
      ReasonForTermination.NODE_NORMAL_TERMINATION := by
  apply C3_guarded_stage_exceptions
  intro E hE
  simp only [List.mem_singleton] at hE
  subst hE
  exact ⟨rfl, rfl, rfl, rfl⟩

/-- Claim C4: in a multicast-check stage that fires and completes without
an exception, `lastMulticastAnnounceAll` is set to `now` iff `announceAll`
was computed true and the map of networks to announce was nonempty; it
stays put when `announceAll` is false or nothing was announced. -/
theorem C4_announce_all_stamp (C : Consts) (E : TickEnv) (st : LoopState)
    (ta : List (Nat × List Nat))
    (hfired : C.multicastLocalPollPeriod ≤ sub64 E.now st.lastMulticastCheck)
    (hcollect : collectToAnnounce
      (decide (C.multicastLikeAnnounceAllPeriod ≤ sub64 E.now st.lastMulticastAnnounceAll))
      E.networks = Except.ok ta)
    (hann : okB E.announceRes = true)
    (hold : st.lastMulticastAnnounceAll ≠ E.now) :
    ((multicastStage C E st).1.lastMulticastAnnounceAll = E.now ↔
      (C.multicastLikeAnnounceAllPeriod ≤ sub64 E.now st.lastMulticastAnnounceAll ∧
        ta ≠ [])) := by
  obtain ⟨u, hu⟩ := (okB_iff _).mp hann
  simp only [multicastStage, if_pos hfired, hcollect, hu]
  by_cases hempty : ta = []
  · subst hempty
    simp only [List.isEmpty_nil, if_true]
    simp [hold]
  · rw [if_neg (by simpa [List.isEmpty_iff] using hempty)]
    by_cases hall : C.multicastLikeAnnounceAllPeriod ≤ sub64 E.now st.lastMulticastAnnounceAll
    · simp [hall, hempty]
    · simp [hall, hold]

/-- Concrete runs of `C4_announce_all_stamp`: with `announceAll` true and
one announced network the stamp advances to `now`; with `announceAll`
false (recent announce-all) and the same nonempty map it does not. -/
theorem C4_announce_all_stamp_witness :
    (multicastStage
      { sleepWakeDetectionThreshold := 2000, sleepWakeSettleTime := 5000,
        networkFingerprintCheckDelay := 5000, multicastLocalPollPeriod := 10000,
        multicastLikeAnnounceAllPeriod := 120000, pingCheckDelay := 7000,
        peerDirectPingDelay := 10000, dbCleanPeriod := 300000,
        minServiceLoopInterval := 100, defaultUdpPort := 9993 }
      { now := 1000000, fp := Except.ok 1, whack := Except.ok (),
        networks := [{ id := 5, update := Except.ok false, groups := [9] }],
        announceRes := Except.ok (), amSupernode := false, supernodePeers := [],
        activeDirectPeers := Except.ok [], needPing := Except.ok [],
        needFirewallOpener := Except.ok [], helloRes := fun _ => Except.ok (),
        firewallRes := fun _ => Except.ok (), cleanTopology := Except.ok (),
        cleanNetworks := Except.ok (), doTimerTasks := Except.ok 100, elapsedMs := 100 }
      { lastPingCheck := 0, lastClean := 0, lastNetworkFingerprintCheck := 0,
        lastAutoconfigureCheck := 0, networkConfigurationFingerprint := 1,
        lastMulticastCheck := 0, lastMulticastAnnounceAll := 0,
        lastDelayDelta := 0 }).1.lastMulticastAnnounceAll = 1000000 ∧
    (multicastStage
      { sleepWakeDetectionThreshold := 2000, sleepWakeSettleTime := 5000,
        networkFingerprintCheckDelay := 5000, multicastLocalPollPeriod := 10000,
        multicastLikeAnnounceAllPeriod := 120000, pingCheckDelay := 7000,
        peerDirectPingDelay := 10000, dbCleanPeriod := 300000,
        minServiceLoopInterval := 100, defaultUdpPort := 9993 }
      { now := 1000000, fp := Except.ok 1, whack := Except.ok (),
        networks := [{ id := 5, update := Except.ok true, groups := [9] }],
        announceRes := Except.ok (), amSupernode := false, supernodePeers := [],
        activeDirectPeers := Except.ok [], needPing := Except.ok [],
        needFirewallOpener := Except.ok [], helloRes := fun _ => Except.ok (),
        firewallRes := fun _ => Except.ok (), cleanTopology := Except.ok (),
        cleanNetworks := Except.ok (), doTimerTasks := Except.ok 100, elapsedMs := 100 }
      { lastPingCheck := 0, lastClean := 0, lastNetworkFingerprintCheck := 0,
        lastAutoconfigureCheck := 0, networkConfigurationFingerprint := 1,
        lastMulticastCheck := 0, lastMulticastAnnounceAll := 990000,
        lastDelayDelta := 0 }).1.lastMulticastAnnounceAll ≠ 1000000 := by
  constructor
  · exact (C4_announce_all_stamp
      { sleepWakeDetectionThreshold := 2000, sleepWakeSettleTime := 5000,
        networkFingerprintCheckDelay := 5000, multicastLocalPollPeriod := 10000,
        multicastLikeAnnounceAllPeriod := 120000, pingCheckDelay := 7000,
        peerDirectPingDelay := 10000, dbCleanPeriod := 300000,
        minServiceLoopInterval := 100, defaultUdpPort := 9993 }
      { now := 1000000, fp := Except.ok 1, whack := Except.ok (),
        networks := [{ id := 5, update := Except.ok false, groups := [9] }],
        announceRes := Except.ok (), amSupernode := false, supernodePeers := [],
        activeDirectPeers := Except.ok [], needPing := Except.ok [],
        needFirewallOpener := Except.ok [], helloRes := fun _ => Except.ok (),
        firewallRes := fun _ => Except.ok (), cleanTopology := Except.ok (),
        cleanNetworks := Except.ok (), doTimerTasks := Except.ok 100, elapsedMs := 100 }
      { lastPingCheck := 0, lastClean := 0, lastNetworkFingerprintCheck := 0,
        lastAutoconfigureCheck := 0, networkConfigurationFingerprint := 1,
        lastMulticastCheck := 0, lastMulticastAnnounceAll := 0,
        lastDelayDelta := 0 }
      [(5, [9])] (by decide) rfl rfl (by decide)).mpr ⟨by decide, by decide⟩
  · have h := C4_announce_all_stamp
      { sleepWakeDetectionThreshold := 2000, sleepWakeSettleTime := 5000,
        networkFingerprintCheckDelay := 5000, multicastLocalPollPeriod := 10000,
        multicastLikeAnnounceAllPeriod := 120000, pingCheckDelay := 7000,
        peerDirectPingDelay := 10000, dbCleanPeriod := 300000,
        minServiceLoopInterval := 100, defaultUdpPort := 9993 }
      { now := 1000000, fp := Except.ok 1, whack := Except.ok (),
        networks := [{ id := 5, update := Except.ok true, groups := [9] }],
        announceRes := Except.ok (), amSupernode := false, supernodePeers := [],
        activeDirectPeers := Except.ok [], needPing := Except.ok [],
        needFirewallOpener := Except.ok [], helloRes := fun _ => Except.ok (),
        firewallRes := fun _ => Except.ok (), cleanTopology := Except.ok (),
        cleanNetworks := Except.ok (), doTimerTasks := Except.ok 100, elapsedMs := 100 }
      { lastPingCheck := 0, lastClean := 0, lastNetworkFingerprintCheck := 0,
        lastAutoconfigureCheck := 0, networkConfigurationFingerprint := 1,
        lastMulticastCheck := 0, lastMulticastAnnounceAll := 990000,
        lastDelayDelta := 0 }
      [(5, [9])] (by decide) rfl rfl (by decide)
    exact fun hnow => absurd (h.mp hnow).1 (by decide)

theorem multicastStage_fields (C : Consts) (E : TickEnv) (st : LoopState) :
    (multicastStage C E st).1.lastPingCheck = st.lastPingCheck ∧
    (multicastStage C E st).1.lastNetworkFingerprintCheck = st.lastNetworkFingerprintCheck ∧
    (multicastStage C E st).1.lastClean = st.lastClean ∧
    (multicastStage C E st).1.lastAutoconfigureCheck = st.lastAutoconfigureCheck ∧
    (multicastStage C E st).1.networkConfigurationFingerprint
      = st.networkConfigurationFingerprint ∧
    (multicastStage C E st).1.lastDelayDelta = st.lastDelayDelta ∧
    (multicastStage C E st).1.lastMulticastCheck =
      (if C.multicastLocalPollPeriod ≤ sub64 E.now st.lastMulticastCheck then E.now
       else st.lastMulticastCheck) := by
  unfold multicastStage
  split
  · cases hc : collectToAnnounce
      (decide (C.multicastLikeAnnounceAllPeriod ≤ sub64 E.now st.lastMulticastAnnounceAll))
      E.networks with
    | error e => simp [hc]
    | ok ta =>
      simp only [hc]
      repeat' split
      all_goals simp
  · simp

theorem pingStage_fields (C : Consts) (E : TickEnv) (st : LoopState) (pingAll : Bool) :
    (pingStage C E st pingAll).1.lastClean = st.lastClean ∧
    (pingStage C E st pingAll).1.lastNetworkFingerprintCheck
      = st.lastNetworkFingerprintCheck ∧
    (pingStage C E st pingAll).1.lastMulticastCheck = st.lastMulticastCheck ∧
    (pingStage C E st pingAll).1.lastMulticastAnnounceAll = st.lastMulticastAnnounceAll ∧
    (pingStage C E st pingAll).1.lastAutoconfigureCheck = st.lastAutoconfigureCheck ∧
    (pingStage C E st pingAll).1.networkConfigurationFingerprint
      = st.networkConfigurationFingerprint ∧
    (pingStage C E st pingAll).1.lastDelayDelta = st.lastDelayDelta := by
  unfold pingStage
  repeat' split
  all_goals simp

theorem cleanStage_fields (C : Consts) (E : TickEnv) (st st' : LoopState)
    (h : cleanStage C E st = Except.ok st') :
    st'.lastPingCheck = st.lastPingCheck ∧
    st'.lastNetworkFingerprintCheck = st.lastNetworkFingerprintCheck ∧
    st'.lastMulticastCheck = st.lastMulticastCheck ∧
    st'.lastMulticastAnnounceAll = st.lastMulticastAnnounceAll ∧
    st'.lastAutoconfigureCheck = st.lastAutoconfigureCheck ∧
    st'.networkConfigurationFingerprint = st.networkConfigurationFingerprint ∧
    st'.lastDelayDelta = st.lastDelayDelta := by
  unfold cleanStage at h
  split at h
  · split at h
    · exact absurd h (by simp)
    · split at h
      · exact absurd h (by simp)
      · simp only [Except.ok.injEq] at h
        subst h
        simp
  · simp only [Except.ok.injEq] at h
    subst h
    simp

theorem waitStage_fields (C : Consts) (E : TickEnv) (st : LoopState) :
    (waitStage C E st).1.lastPingCheck = st.lastPingCheck ∧
    (waitStage C E st).1.lastNetworkFingerprintCheck = st.lastNetworkFingerprintCheck ∧
    (waitStage C E st).1.lastMulticastCheck = st.lastMulticastCheck ∧
    (waitStage C E st).1.lastMulticastAnnounceAll = st.lastMulticastAnnounceAll ∧
    (waitStage C E st).1.lastAutoconfigureCheck = st.lastAutoconfigureCheck ∧
    (waitStage C E st).1.networkConfigurationFingerprint
      = st.networkConfigurationFingerprint ∧
    (waitStage C E st).1.lastClean = st.lastClean := by
  unfold waitStage
  split <;> simp

/-- The ping stage in a `pingAll` iteration of a non-supernode: it sends
one HELLO to every peer with an active direct path (and nothing else),
when the collection and the sends do not throw. -/
theorem pingStage_pingAll (C : Consts) (E : TickEnv) (st : LoopState)
    (hfired : C.pingCheckDelay ≤ sub64 E.now st.lastPingCheck)
    (hsn : E.amSupernode = false) (adp : List Nat)
    (hadp : E.activeDirectPeers = Except.ok adp)
    (hhr : ∀ a, E.helloRes a = Except.ok ()) :
    pingStage C E st true = ({ st with lastPingCheck := E.now },
      adp.map Event.hello) := by
  unfold pingStage
  rw [if_pos hfired]
  simp only [hsn, Bool.false_eq_true, if_false, if_true, hadp]
  simp [helloCaught, hhr]

/-- Claim C6: in an iteration whose `lastDelayDelta` is at least the
sleep/wake threshold, the loop zeroes the fingerprint and multicast
timers (so both rechecks fire in this same iteration and restamp to
`now`), sleeps `sleepWakeSettleTime` first, and — the fingerprint being
unchanged, the node not a supernode, and the ping check due — sends a
HELLO to every peer with an active direct path. -/
theorem C6_sleep_wake_reaction (C : Consts) (E : TickEnv) (st : LoopState) (adp : List Nat)
    (h64 : E.now < 2 ^ 64)
    (hdelta : (C.sleepWakeDetectionThreshold : Int) ≤ st.lastDelayDelta)
    (hfp : E.fp = Except.ok st.networkConfigurationFingerprint)
    (hfpfire : C.networkFingerprintCheckDelay ≤ E.now)
    (hmcfire : C.multicastLocalPollPeriod ≤ E.now)
    (hping : C.pingCheckDelay ≤ sub64 E.now st.lastPingCheck)
    (hsn : E.amSupernode = false)
    (hadp : E.activeDirectPeers = Except.ok adp)
    (hhr : ∀ a, E.helloRes a = Except.ok ())
    (hct : okB E.cleanTopology = true) (hcn : okB E.cleanNetworks = true) :
    ∃ st' evs, tick C E st = Except.ok (st', evs) ∧
      evs.head? = some (Event.sleep C.sleepWakeSettleTime) ∧
      st'.lastNetworkFingerprintCheck = E.now ∧
      st'.lastMulticastCheck = E.now ∧
      (∀ a ∈ adp, Event.hello a ∈ evs) := by
  have hsub0 : sub64 E.now 0 = E.now := by
    simpa using sub64_of_le E.now 0 (Nat.zero_le _) h64
  -- stage 1: sleep/wake detection fires
  have hsw : sleepWakeStage C st =
      ({ st with lastNetworkFingerprintCheck := 0, lastMulticastCheck := 0 }, true,
        [Event.sleep C.sleepWakeSettleTime]) := by
    unfold sleepWakeStage
    rw [if_pos hdelta]
  set stA : LoopState :=
    { st with lastNetworkFingerprintCheck := 0, lastMulticastCheck := 0 } with hstA
  -- stage 2: fingerprint check fires, fingerprint unchanged
  have hfs : fingerprintStage C E stA true =
      Except.ok ({ stA with lastNetworkFingerprintCheck := E.now }, true, []) := by
    unfold fingerprintStage
    rw [if_pos (by rw [hstA]; simpa [hsub0] using hfpfire)]
    rw [hfp]
    simp [hstA]
  set stB : LoopState := { stA with lastNetworkFingerprintCheck := E.now } with hstB
  -- stage 3: multicast check fires
  rcases hmc : multicastStage C E stB with ⟨stC, e3⟩
  have hmcf := multicastStage_fields C E stB
  rw [hmc] at hmcf
  have hstC_mc : stC.lastMulticastCheck = E.now := by
    have : (C.multicastLocalPollPeriod ≤ sub64 E.now stB.lastMulticastCheck) := by
      rw [hstB, hstA]
      simpa [hsub0] using hmcfire
    simpa [this] using hmcf.2.2.2.2.2.2
  have hstC_fp : stC.lastNetworkFingerprintCheck = E.now := by
    simpa [hstB] using hmcf.2.1
  have hstC_ping : stC.lastPingCheck = st.lastPingCheck := by
    simpa [hstB, hstA] using hmcf.1
  -- stage 4: ping cycle, pingAll
  have hps : pingStage C E stC true =
      ({ stC with lastPingCheck := E.now }, adp.map Event.hello) := by
    apply pingStage_pingAll C E stC (by rw [hstC_ping]; exact hping) hsn adp hadp hhr
  set stD : LoopState := { stC with lastPingCheck := E.now } with hstD
  -- stage 5: cleanup succeeds
  obtain ⟨stE, hcl⟩ := cleanStage_ok C E stD hct hcn
  have hclf := cleanStage_fields C E stD stE hcl
  -- stage 6: wait
  rcases hws : waitStage C E stE with ⟨stF, e6⟩
  have hwf := waitStage_fields C E stE
  rw [hws] at hwf
  refine ⟨stF, [Event.sleep C.sleepWakeSettleTime] ++ [] ++ e3 ++ adp.map Event.hello ++ e6,
    ?_, by simp, ?_, ?_, ?_⟩
  · simp only [tick, hsw, hfs, hmc, hps, hcl, hws]
  · rw [hwf.2.1, hclf.2.1, hstD, hstC_fp]
  · rw [hwf.2.2.1, hclf.2.2.1, hstD, hstC_mc]
  · intro a ha
    exact List.mem_append_left e6
      (List.mem_append_right _ (List.mem_map_of_mem Event.hello ha))

/-- Concrete run of `C6_sleep_wake_reaction`: a delay delta of 2500 ms
(threshold 2000 ms) forces both rechecks, sleeps 5000 ms first, and
HELLOs both active direct peers. -/
theorem C6_sleep_wake_reaction_witness :
    ∃ st' evs, tick
      { sleepWakeDetectionThreshold := 2000, sleepWakeSettleTime := 5000,
        networkFingerprintCheckDelay := 5000, multicastLocalPollPeriod := 10000,
        multicastLikeAnnounceAllPeriod := 120000, pingCheckDelay := 7000,
        peerDirectPingDelay := 10000, dbCleanPeriod := 300000,
        minServiceLoopInterval := 100, defaultUdpPort := 9993 }
      { now := 1000000, fp := Except.ok 1, whack := Except.ok (), networks := [],
        announceRes := Except.ok (), amSupernode := false, supernodePeers := [],
        activeDirectPeers := Except.ok [11, 22], needPing := Except.ok [],
        needFirewallOpener := Except.ok [], helloRes := fun _ => Except.ok (),
        firewallRes := fun _ => Except.ok (), cleanTopology := Except.ok (),
        cleanNetworks := Except.ok (), doTimerTasks := Except.ok 100, elapsedMs := 100 }
      { lastPingCheck := 0, lastClean := 0, lastNetworkFingerprintCheck := 900000,
        lastAutoconfigureCheck := 0, networkConfigurationFingerprint := 1,
        lastMulticastCheck := 900000, lastMulticastAnnounceAll := 0,
        lastDelayDelta := 2500 } = Except.ok (st', evs) ∧
      evs.head? = some (Event.sleep 5000) ∧
      st'.lastNetworkFingerprintCheck = 1000000 ∧
      st'.lastMulticastCheck = 1000000 ∧
      (∀ a ∈ [11, 22], Event.hello a ∈ evs) := by
  exact C6_sleep_wake_reaction _ _ _ [11, 22] (by decide) (by decide) rfl (by decide)
    (by decide) (by decide) rfl rfl (fun a => rfl) rfl rfl

theorem sleepWakeStage_props (C : Consts) (st : LoopState) :
    (sleepWakeStage C st).1.networkConfigurationFingerprint
      = st.networkConfigurationFingerprint ∧
    (sleepWakeStage C st).1.lastAutoconfigureCheck = st.lastAutoconfigureCheck ∧
    Event.whack ∉ (sleepWakeStage C st).2.2 := by
  unfold sleepWakeStage
  split <;> simp

theorem sendHellosSN_no_whack (hr : Nat → Except Unit Unit) (l : List Nat) :
    Event.whack ∉ (sendHellosSN hr l).1 := by
  induction l with
  | nil => simp [sendHellosSN]
  | cons a rest ih =>
    cases h : hr a with
    | ok u =>
      rcases hrec : sendHellosSN hr rest with ⟨es, threw⟩
      have hstep : sendHellosSN hr (a :: rest) = (Event.hello a :: es, threw) := by
        unfold sendHellosSN
        rw [h, hrec]
      rw [hstep]
      rw [hrec] at ih
      simpa using ih
    | error e =>
      have hstep : sendHellosSN hr (a :: rest) = ([], true) := by
        unfold sendHellosSN
        rw [h]
      rw [hstep]
      simp

theorem helloCaught_ne_whack (hr : Nat → Except Unit Unit) (a : Nat) :
    helloCaught hr a ≠ Event.whack := by
  unfold helloCaught
  split <;> simp

theorem fwCaught_ne_whack (fr : Nat → Except Unit Unit) (a : Nat) :
    fwCaught fr a ≠ Event.whack := by
  unfold fwCaught
  split <;> simp

theorem multicastStage_no_whack (C : Consts) (E : TickEnv) (st : LoopState) :
    Event.whack ∉ (multicastStage C E st).2 := by
  unfold multicastStage
  split
  · cases hc : collectToAnnounce
      (decide (C.multicastLikeAnnounceAllPeriod ≤ sub64 E.now st.lastMulticastAnnounceAll))
      E.networks with
    | error e => simp [hc]
    | ok ta =>
      simp only [hc]
      repeat' split
      all_goals simp
  · simp

theorem pingStage_no_whack (C : Consts) (E : TickEnv) (st : LoopState) (pingAll : Bool) :
    Event.whack ∉ (pingStage C E st pingAll).2 := by
  unfold pingStage
  split
  · split
    · rcases h2 : sendHellosSN E.helloRes
        ((E.supernodePeers.filter
          (fun p => C.peerDirectPingDelay < sub64 E.now p.2)).map Prod.fst) with ⟨es, threw⟩
      have hes := sendHellosSN_no_whack E.helloRes
        ((E.supernodePeers.filter
          (fun p => C.peerDirectPingDelay < sub64 E.now p.2)).map Prod.fst)
      rw [h2] at hes
      simp only [h2]
      split
      · simpa using hes
      · simpa using hes
    · split
      · simp
      · split
        · simp
        · intro hmem
          simp only [List.mem_append, List.mem_map] at hmem
          rcases hmem with ⟨a, _, ha⟩ | ⟨a, _, ha⟩
          · exact helloCaught_ne_whack E.helloRes a ha
          · exact fwCaught_ne_whack E.firewallRes a ha
  · simp

theorem waitStage_no_whack (C : Consts) (E : TickEnv) (st : LoopState) :
    Event.whack ∉ (waitStage C E st).2 := by
  unfold waitStage
  split <;> simp

/-- When the recomputed fingerprint equals the stored one, the
fingerprint stage reacts with nothing: no `pingAll`, no timer resets, no
whack, no events. -/
theorem fingerprintStage_unchanged (C : Consts) (E : TickEnv) (st : LoopState)
    (pingAll : Bool) (st2 : LoopState) (pingAll2 : Bool) (evs2 : List Event)
    (hfp : E.fp = Except.ok st.networkConfigurationFingerprint)
    (h : fingerprintStage C E st pingAll = Except.ok (st2, pingAll2, evs2)) :
    pingAll2 = pingAll ∧ evs2 = [] ∧
    st2.lastMulticastCheck = st.lastMulticastCheck ∧
    st2.lastAutoconfigureCheck = st.lastAutoconfigureCheck ∧
    st2.networkConfigurationFingerprint = st.networkConfigurationFingerprint ∧
    st2.lastPingCheck = st.lastPingCheck ∧
    st2.lastClean = st.lastClean ∧
    st2.lastMulticastAnnounceAll = st.lastMulticastAnnounceAll ∧
    st2.lastDelayDelta = st.lastDelayDelta := by
  unfold fingerprintStage at h
  rw [hfp] at h
  split at h
  · have h2 : (Except.ok (({ st with lastNetworkFingerprintCheck := E.now }, pingAll, []))
        : Except Unit (LoopState × Bool × List Event))
        = Except.ok (st2, pingAll2, evs2) := by
      rw [← h]
      simp
    simp only [Except.ok.injEq, Prod.mk.injEq] at h2
    obtain ⟨ha, hb, hc⟩ := h2
    subst ha
    subst hb
    subst hc
    simp
  · simp only [Except.ok.injEq, Prod.mk.injEq] at h
    obtain ⟨ha, hb, hc⟩ := h
    subst ha
    subst hb
    subst hc
    simp

/-- One iteration with an unchanged fingerprint: no whack, and the stored
fingerprint and autoconfigure timer come out untouched. -/
theorem tick_fp_unchanged (C : Consts) (E : TickEnv) (st st1 : LoopState) (evs : List Event)
    (hfp : E.fp = Except.ok st.networkConfigurationFingerprint)
    (ht : tick C E st = Except.ok (st1, evs)) :
    Event.whack ∉ evs ∧
    st1.networkConfigurationFingerprint = st.networkConfigurationFingerprint ∧
    st1.lastAutoconfigureCheck = st.lastAutoconfigureCheck := by
  rcases hsw : sleepWakeStage C st with ⟨stA, pA, e1⟩
  have hswp := sleepWakeStage_props C st
  rw [hsw] at hswp
  obtain ⟨hswfp, hswac, hswnw⟩ := hswp
  rcases hfs : fingerprintStage C E stA pA with e | ⟨stB, pB, e2⟩
  · exfalso
    simp only [tick, hsw, hfs] at ht
    exact Except.noConfusion ht
  have hfpA : E.fp = Except.ok stA.networkConfigurationFingerprint := by
    rw [hswfp]; exact hfp
  obtain ⟨hpB, he2, hmcB, hacB, hfpB, _, _, _, _⟩ :=
    fingerprintStage_unchanged C E stA pA stB pB e2 hfpA hfs
  rcases hmc : multicastStage C E stB with ⟨stC, e3⟩
  have hmcf := multicastStage_fields C E stB
  rw [hmc] at hmcf
  have hmcw := multicastStage_no_whack C E stB
  rw [hmc] at hmcw
  rcases hps : pingStage C E stC pB with ⟨stD, e4⟩
  have hpsf := pingStage_fields C E stC pB
  rw [hps] at hpsf
  have hpsw := pingStage_no_whack C E stC pB
  rw [hps] at hpsw
  rcases hcl : cleanStage C E stD with e | stE
  · exfalso
    simp only [tick, hsw, hfs, hmc, hps, hcl] at ht
    exact Except.noConfusion ht
  have hclf := cleanStage_fields C E stD stE hcl
  rcases hws : waitStage C E stE with ⟨stF, e6⟩
  have hwf := waitStage_fields C E stE
  rw [hws] at hwf
  have hww := waitStage_no_whack C E stE
  rw [hws] at hww
  have hteq : (Except.ok (stF, e1 ++ e2 ++ e3 ++ e4 ++ e6) :
      Except Unit (LoopState × List Event)) = Except.ok (st1, evs) := by
    rw [← ht]
    simp only [tick, hsw, hfs, hmc, hps, hcl, hws]
  simp only [Except.ok.injEq, Prod.mk.injEq] at hteq
  obtain ⟨hst, hevs⟩ := hteq
  subst hst
  subst hevs
  refine ⟨?_, ?_, ?_⟩
  · intro hmem
    subst he2
    rcases List.mem_append.mp hmem with hm | hm
    · rcases List.mem_append.mp hm with hm2 | hm2
      · rcases List.mem_append.mp hm2 with hm3 | hm3
        · rcases List.mem_append.mp hm3 with hm4 | hm4
          · exact hswnw hm4
          · simp at hm4
        · exact hmcw hm3
      · exact hpsw hm2
    · exact hww hm
  · rw [hwf.2.2.2.2.2.1, hclf.2.2.2.2.2.1, hpsf.2.2.2.2.2.1, hmcf.2.2.2.2.1, hfpB, hswfp]
  · rw [hwf.2.2.2.2.1, hclf.2.2.2.2.1, hpsf.2.2.2.2.1, hmcf.2.2.2.1, hacB, hswac]

/-- Claim C7: across any run in which every recomputed sysenv fingerprint
equals the stored one, the fingerprint-change reaction never fires —
`whackAllTaps` is never called, the stored fingerprint and the
autoconfigure timer never move — and, per stage, an unchanged fingerprint
leaves `pingAll`, the multicast timer and the autoconfigure timer exactly
as they were (so those effects can only occur in an iteration whose
recomputed fingerprint differs). -/
theorem C7_no_resync_when_fingerprint_stable (C : Consts) (envs : List TickEnv)
    (st0 : LoopState)
    (h : ∀ E ∈ envs, E.fp = Except.ok st0.networkConfigurationFingerprint) :
    (∀ st1 evs, ticks C envs st0 = Except.ok (st1, evs) →
      Event.whack ∉ evs ∧
      st1.networkConfigurationFingerprint = st0.networkConfigurationFingerprint ∧
      st1.lastAutoconfigureCheck = st0.lastAutoconfigureCheck) ∧
    (∀ E st pingAll st2 pingAll2 evs2,
      E.fp = Except.ok st.networkConfigurationFingerprint →
      fingerprintStage C E st pingAll = Except.ok (st2, pingAll2, evs2) →
      pingAll2 = pingAll ∧ evs2 = [] ∧
      st2.lastMulticastCheck = st.lastMulticastCheck ∧
      st2.lastAutoconfigureCheck = st.lastAutoconfigureCheck ∧
      st2.networkConfigurationFingerprint = st.networkConfigurationFingerprint) := by
  constructor
  · induction envs generalizing st0 with
    | nil =>
      intro st1 evs ht
      simp only [ticks, Except.ok.injEq, Prod.mk.injEq] at ht
      obtain ⟨h1, h2⟩ := ht
      subst h1
      subst h2
      simp
    | cons E rest ih =>
      intro st1 evs ht
      rcases htk : tick C E st0 with e | ⟨stm, evsm⟩
      · exfalso
        simp only [ticks, htk] at ht
        exact Except.noConfusion ht
      rcases hts : ticks C rest stm with e | ⟨st2, evs2⟩
      · exfalso
        simp only [ticks, htk, hts] at ht
        exact Except.noConfusion ht
      have hfirst := tick_fp_unchanged C E st0 stm evsm
        (h E (List.mem_cons_self E rest)) htk
      have hrest : ∀ F ∈ rest, F.fp = Except.ok stm.networkConfigurationFingerprint := by
        intro F hF
        rw [hfirst.2.1]
        exact h F (List.mem_cons_of_mem E hF)
      have htail := ih stm hrest st2 evs2 hts
      have hteq : (Except.ok (st2, evsm ++ evs2) : Except Unit (LoopState × List Event))
          = Except.ok (st1, evs) := by
        rw [← ht]
        simp only [ticks, htk, hts]
      simp only [Except.ok.injEq, Prod.mk.injEq] at hteq
      obtain ⟨h1, h2⟩ := hteq
      subst h1
      subst h2
      refine ⟨?_, ?_, ?_⟩
      · intro hmem
        rcases List.mem_append.mp hmem with hm | hm
        · exact hfirst.1 hm
        · exact htail.1 hm
      · rw [htail.2.1, hfirst.2.1]
      · rw [htail.2.2, hfirst.2.2]
  · intro E st pingAll st2 pingAll2 evs2 hfp hstage
    have := fingerprintStage_unchanged C E st pingAll st2 pingAll2 evs2 hfp hstage
    exact ⟨this.1, this.2.1, this.2.2.1, this.2.2.2.1, this.2.2.2.2.1⟩

/-- Concrete run of `C7_no_resync_when_fingerprint_stable`: one iteration
whose recomputed fingerprint equals the stored value 1 emits only the
timer wait, leaves the fingerprint at 1 and the autoconfigure timer at 7. -/
theorem C7_no_resync_witness :
    Event.whack ∉ [Event.wait 100] ∧
    ({ lastPingCheck := 1000000, lastClean := 1000000,
       lastNetworkFingerprintCheck := 1000000, lastAutoconfigureCheck := 7,
       networkConfigurationFingerprint := 1, lastMulticastCheck := 1000000,
       lastMulticastAnnounceAll := 1000000, lastDelayDelta := 0 }
      : LoopState).networkConfigurationFingerprint = 1 ∧
    ({ lastPingCheck := 1000000, lastClean := 1000000,
       lastNetworkFingerprintCheck := 1000000, lastAutoconfigureCheck := 7,
       networkConfigurationFingerprint := 1, lastMulticastCheck := 1000000,
       lastMulticastAnnounceAll := 1000000, lastDelayDelta := 0 }
      : LoopState).lastAutoconfigureCheck = 7 := by
  have h := (C7_no_resync_when_fingerprint_stable
    { sleepWakeDetectionThreshold := 2000, sleepWakeSettleTime := 5000,
      networkFingerprintCheckDelay := 5000, multicastLocalPollPeriod := 10000,
      multicastLikeAnnounceAllPeriod := 120000, pingCheckDelay := 7000,
      peerDirectPingDelay := 10000, dbCleanPeriod := 300000,
      minServiceLoopInterval := 100, defaultUdpPort := 9993 }
    [{ now := 1000000, fp := Except.ok 1, whack := Except.ok (), networks := [],
       announceRes := Except.ok (), amSupernode := false, supernodePeers := [],
       activeDirectPeers := Except.ok [], needPing := Except.ok [],
       needFirewallOpener := Except.ok [], helloRes := fun _ => Except.ok (),
       firewallRes := fun _ => Except.ok (), cleanTopology := Except.ok (),
       cleanNetworks := Except.ok (), doTimerTasks := Except.ok 100, elapsedMs := 100 }]
    { lastPingCheck := 1000000, lastClean := 1000000,
      lastNetworkFingerprintCheck := 0, lastAutoconfigureCheck := 7,
      networkConfigurationFingerprint := 1, lastMulticastCheck := 1000000,
      lastMulticastAnnounceAll := 1000000, lastDelayDelta := 0 }
    (by
      intro F hF
      simp only [List.mem_singleton] at hF
      subst hF
      rfl)).1
    { lastPingCheck := 1000000, lastClean := 1000000,
      lastNetworkFingerprintCheck := 1000000, lastAutoconfigureCheck := 7,
      networkConfigurationFingerprint := 1, lastMulticastCheck := 1000000,
      lastMulticastAnnounceAll := 1000000, lastDelayDelta := 0 }
    [Event.wait 100] rfl
  exact ⟨h.1, h.2.1, h.2.2⟩

/-! ## Startup sequence (`Node::run` lines 298-405) -/

/-- The home directory contents: relative path → file contents.  Strings
stand for byte strings. -/
def FS := String → Option String

/-- `Utils::writeFile` when it succeeds: replace the file contents. -/
def fsWrite (fs : FS) (path contents : String) : FS :=
  fun p => if p = path then some contents else fs p

/-- `unlink`: remove the file if present. -/
def fsErase (fs : FS) (path : String) : FS :=
  fun p => if p = path then none else fs p

/-- Modelled from the spec: Identity.cpp is outside the given sources; an
identity is carried by its two serializations, `toString(true)` (secret,
private + public) and `toString(false)` (public projection). -/
structure Identity where
  secretStr : String
  publicStr : String
  deriving DecidableEq, Repr

/-- Oracles of the startup sequence: the home directory, write-permission
outcomes, identity parsing and generation, the generated auth token, and
whether each fallible construction step succeeds (that code is outside
Node.cpp). -/
structure StartupEnv where
  fs : FS
  writeOk : String → Bool
  idFromString : String → Option Identity
  generatedIdentity : Identity
  genToken : String
  nodeConfigOk : Bool
  bindOk : Nat → Bool
  serviceStartOk : Bool

/-- Identity resolution (lines 310-336): read and parse identity.secret;
if parseable, rewrite identity.public iff its contents differ from the
public projection; otherwise generate a fresh identity and write both
files.  An `Except.error` carries the terminateBecause reason. -/
def identityInit (E : StartupEnv) (fs : FS) : Except String (Identity × FS) :=
  match (fs "identity.secret").bind E.idFromString with
  | some ident =>
    let pubid := ident.publicStr
    let cur := (fs "identity.public").getD ""
    if cur ≠ pubid then
      if E.writeOk "identity.public" then
        Except.ok (ident, fsWrite fs "identity.public" pubid)
      else Except.error "could not write identity.public (home path not writable?)"
    else Except.ok (ident, fs)
  | none =>
    let ident := E.generatedIdentity
    if E.writeOk "identity.secret" then
      let fs1 := fsWrite fs "identity.secret" ident.secretStr
      if E.writeOk "identity.public" then
        Except.ok (ident, fsWrite fs1 "identity.public" ident.publicStr)
      else Except.error "could not write identity.public (home path not writable?)"
    else Except.error "could not write identity.secret (home path not writable?)"

/-- Construction and binding steps of the startup sequence, in program
order. -/
inductive StartEvent
  | constructNodeConfig
  | constructDemarc
  | constructMulticaster
  | constructSwitch
  | constructTopology
  | constructSysEnv
  | bindUdp (port : Nat)
  | setSupernodes
  | startNetconfService
  deriving DecidableEq, Repr

/-- What startup left behind: the result (error = terminateBecause reason
string), the construction events that ran, the resulting home directory,
and the resolved identity, auth token and bound port. -/
structure StartOutcome where
  result : Except String Unit
  events : List StartEvent
  fs : FS
  identity : Option Identity
  authToken : Option String
  boundPort : Option Nat

/-- Startup sequence of `run()` (lines 298-405): identity, legacy file
cleanup, auth token, NodeConfig construction (whose failure is the
single-instance guard), core object construction, UDP port scan over
`[defaultUdpPort, defaultUdpPort + 128)`, supernode installation, and the
optional netconf service spawn (whose failure is caught and logged). -/
def startup (C : Consts) (E : StartupEnv) : StartOutcome :=
  match identityInit E E.fs with
  | Except.error r =>
    { result := Except.error r, events := [], fs := E.fs, identity := none,
      authToken := none, boundPort := none }
  | Except.ok (ident, fs0) =>
    let fs1 := fsErase (fsErase fs0 "status") "thisdeviceismine"
    match (match fs1 "authtoken.secret" with
           | some t => some (t, fs1)
           | none =>
             if E.writeOk "authtoken.secret" then
               some (E.genToken, fsWrite fs1 "authtoken.secret" E.genToken)
             else none) with
    | none =>
      { result := Except.error "could not write authtoken.secret (home path not writable?)",
        events := [], fs := fs1, identity := some ident, authToken := none,
        boundPort := none }
    | some (tok, fs2) =>
      if E.nodeConfigOk then
        let evs1 := [StartEvent.constructNodeConfig, StartEvent.constructDemarc,
          StartEvent.constructMulticaster, StartEvent.constructSwitch,
          StartEvent.constructTopology, StartEvent.constructSysEnv]
        match (List.range 128).find? (fun i => E.bindOk (C.defaultUdpPort + i)) with
        | some i =>
          { result := Except.ok (),
            events := evs1 ++ [StartEvent.bindUdp (C.defaultUdpPort + i),
              StartEvent.setSupernodes] ++
              (if (fs2 "services.d/netconf.service").isSome && E.serviceStartOk then
                [StartEvent.startNetconfService] else []),
            fs := fs2, identity := some ident, authToken := some tok,
            boundPort := some (C.defaultUdpPort + i) }
        | none =>
          { result := Except.error "could not bind any local UDP ports",
            events := evs1, fs := fs2, identity := some ident, authToken := some tok,
            boundPort := none }
      else
        { result := Except.error
            "another instance of ZeroTier One appears to be running, or local control UDP port cannot be bound",
          events := [], fs := fs2, identity := some ident, authToken := some tok,
          boundPort := none }

/-- `Node::run` end to end: startup, then initialization of the loop
state (including the initial fingerprint sample, whose throw reaches the
outer catch), then the main loop unless `terminateNow` was already set at
the first loop test.  Returns the termination reason, its string, the
startup events and the loop events. -/
def nodeRun (C : Consts) (E : StartupEnv) (initFp : Except Unit Nat)
    (terminateNow : Bool) (envs : List TickEnv) (lastCleanInit : Nat) :
    ReasonForTermination × String × List StartEvent × List Event :=
  let so := startup C E
  match so.result with
  | Except.error r => (ReasonForTermination.NODE_UNRECOVERABLE_ERROR, r, so.events, [])
  | Except.ok _ =>
    match initFp with
    | Except.error _ =>
      (ReasonForTermination.NODE_UNRECOVERABLE_ERROR,
        "unexpected exception during outer main I/O loop", so.events, [])
    | Except.ok fp0 =>
      let st0 : LoopState :=
        { lastPingCheck := 0, lastClean := lastCleanInit,
          lastNetworkFingerprintCheck := 0, lastAutoconfigureCheck := 0,
          networkConfigurationFingerprint := fp0, lastMulticastCheck := 0,
          lastMulticastAnnounceAll := 0, lastDelayDelta := 0 }
      if terminateNow then
        (ReasonForTermination.NODE_NORMAL_TERMINATION, "normal termination",
          so.events, [])
      else
        match ticks C envs st0 with
        | Except.ok (_, evs) =>
          (ReasonForTermination.NODE_NORMAL_TERMINATION, "normal termination",
            so.events, evs)
        | Except.error _ =>
          (ReasonForTermination.NODE_UNRECOVERABLE_ERROR,
            "unexpected exception during outer main I/O loop", so.events, [])

/-- Evaluation of `identityInit` when identity.secret reads and parses. -/
theorem identityInit_parsed (E : StartupEnv) (fs : FS) (ident : Identity)
    (hparsed : (fs "identity.secret").bind E.idFromString = some ident) :
    identityInit E fs =
      (if (fs "identity.public").getD "" ≠ ident.publicStr then
        (if E.writeOk "identity.public" then
          Except.ok (ident, fsWrite fs "identity.public" ident.publicStr)
        else Except.error "could not write identity.public (home path not writable?)")
      else Except.ok (ident, fs)) := by
  unfold identityInit
  rw [hparsed]

/-- Claim C5: when a parseable identity.secret exists and identity
resolution completes successfully, identity.public is overwritten with
the public projection of the secret identity exactly when its current
contents differ, and afterwards identity.public holds precisely that
public projection.  (`hpub_ne` records that a real identity serialization
is never the empty string, which is also what a failed read yields.) -/
theorem C5_identity_public_sync (E : StartupEnv) (fs : FS) (s : String)
    (ident i : Identity) (fs' : FS)
    (hsec : fs "identity.secret" = some s)
    (hparse : E.idFromString s = some ident)
    (hpub_ne : ident.publicStr ≠ "")
    (hrun : identityInit E fs = Except.ok (i, fs')) :
    i = ident ∧
    fs' "identity.public" = some ident.publicStr ∧
    (if (fs "identity.public").getD "" = ident.publicStr then fs' = fs
     else fs' = fsWrite fs "identity.public" ident.publicStr) := by
  rw [identityInit_parsed E fs ident (by rw [hsec]; exact hparse)] at hrun
  by_cases hcur : (fs "identity.public").getD "" = ident.publicStr
  · rw [if_neg (by simp [hcur])] at hrun
    simp only [Except.ok.injEq, Prod.mk.injEq] at hrun
    obtain ⟨hi, hfs⟩ := hrun
    subst hi
    subst hfs
    refine ⟨rfl, ?_, by rw [if_pos hcur]⟩
    cases hp : fs "identity.public" with
    | none =>
      rw [hp] at hcur
      simp at hcur
      exact absurd hcur.symm hpub_ne
    | some x =>
      rw [hp] at hcur
      simp at hcur
      rw [hcur]
  · rw [if_pos hcur] at hrun
    by_cases hw : E.writeOk "identity.public"
    · rw [if_pos hw] at hrun
      simp only [Except.ok.injEq, Prod.mk.injEq] at hrun
      obtain ⟨hi, hfs⟩ := hrun
      subst hi
      subst hfs
      refine ⟨rfl, by simp [fsWrite], by rw [if_neg hcur]⟩
    · rw [if_neg hw] at hrun
      exact absurd hrun (by simp)

/-- Concrete run of `C5_identity_public_sync`: a home directory whose
identity.public holds stale contents gets it rewritten to the public
projection of identity.secret. -/
theorem C5_identity_public_sync_witness :
    ∃ fs', identityInit
      { fs := fun p => if p = "identity.secret" then some "SEC"
                       else if p = "identity.public" then some "OLD" else none,
        writeOk := fun _ => true,
        idFromString := fun s => if s = "SEC" then
          some { secretStr := "SEC", publicStr := "PUB" } else none,
        generatedIdentity := { secretStr := "G", publicStr := "GP" },
        genToken := "tttttttttttttttttttttttt", nodeConfigOk := true,
        bindOk := fun _ => true, serviceStartOk := true }
      (fun p => if p = "identity.secret" then some "SEC"
                else if p = "identity.public" then some "OLD" else none) =
      Except.ok ({ secretStr := "SEC", publicStr := "PUB" }, fs') ∧
      fs' "identity.public" = some "PUB" := by
  have hrun : identityInit
      { fs := fun p => if p = "identity.secret" then some "SEC"
                       else if p = "identity.public" then some "OLD" else none,
        writeOk := fun _ => true,
        idFromString := fun s => if s = "SEC" then
          some { secretStr := "SEC", publicStr := "PUB" } else none,
        generatedIdentity := { secretStr := "G", publicStr := "GP" },
        genToken := "tttttttttttttttttttttttt", nodeConfigOk := true,
        bindOk := fun _ => true, serviceStartOk := true }
      (fun p => if p = "identity.secret" then some "SEC"
                else if p = "identity.public" then some "OLD" else none) =
      Except.ok ({ secretStr := "SEC", publicStr := "PUB" },
        fsWrite (fun p => if p = "identity.secret" then some "SEC"
                          else if p = "identity.public" then some "OLD" else none)
          "identity.public" "PUB") := rfl
  have h := C5_identity_public_sync _ _ "SEC"
    { secretStr := "SEC", publicStr := "PUB" }
    { secretStr := "SEC", publicStr := "PUB" } _
    rfl rfl (by decide) hrun
  exact ⟨_, hrun, h.2.1⟩

/-- Claim C8: when NodeConfig construction throws (the control UDP port
being taken by another instance), `run()` returns UNRECOVERABLE_ERROR
immediately with the "another instance" reason, and none of the later
startup steps — demarcation, switch, topology, port binding, supernode
installation — execute. -/
theorem C8_single_instance_guard (C : Consts) (E : StartupEnv) (initFp : Except Unit Nat)
    (terminateNow : Bool) (envs : List TickEnv) (lastCleanInit : Nat)
    (ident : Identity) (fs0 : FS)
    (hid : identityInit E E.fs = Except.ok (ident, fs0))
    (htok : E.writeOk "authtoken.secret" = true)
    (hnc : E.nodeConfigOk = false) :
    ∃ evs, nodeRun C E initFp terminateNow envs lastCleanInit =
      (ReasonForTermination.NODE_UNRECOVERABLE_ERROR,
       "another instance of ZeroTier One appears to be running, or local control UDP port cannot be bound",
       evs, []) ∧
      StartEvent.constructDemarc ∉ evs ∧ StartEvent.constructSwitch ∉ evs ∧
      StartEvent.constructTopology ∉ evs ∧ (∀ p, StartEvent.bindUdp p ∉ evs) ∧
      StartEvent.setSupernodes ∉ evs := by
  refine ⟨[], ?_, by simp, by simp, by simp, fun p => by simp, by simp⟩
  unfold nodeRun startup
  rw [hid]
  cases htk : (fsErase (fsErase fs0 "status") "thisdeviceismine") "authtoken.secret" with
  | some t => simp only [htk, hnc, Bool.false_eq_true, if_false]
  | none => simp only [htk, htok, if_true, hnc, Bool.false_eq_true, if_false]

/-- Concrete run of `C8_single_instance_guard`: a consistent home
directory whose NodeConfig constructor throws yields the "another
instance" termination with no later construction step. -/
theorem C8_single_instance_guard_witness :
    ∃ evs, nodeRun
      { sleepWakeDetectionThreshold := 2000, sleepWakeSettleTime := 5000,
        networkFingerprintCheckDelay := 5000, multicastLocalPollPeriod := 10000,
        multicastLikeAnnounceAllPeriod := 120000, pingCheckDelay := 7000,
        peerDirectPingDelay := 10000, dbCleanPeriod := 300000,
        minServiceLoopInterval := 100, defaultUdpPort := 9993 }
      { fs := fun p => if p = "identity.secret" then some "SEC"
                       else if p = "identity.public" then some "PUB" else none,
        writeOk := fun _ => true,
        idFromString := fun s => if s = "SEC" then
          some { secretStr := "SEC", publicStr := "PUB" } else none,
        generatedIdentity := { secretStr := "G", publicStr := "GP" },
        genToken := "tttttttttttttttttttttttt", nodeConfigOk := false,
        bindOk := fun _ => true, serviceStartOk := true }
      (Except.ok 1) false [] 0 =
      (ReasonForTermination.NODE_UNRECOVERABLE_ERROR,
       "another instance of ZeroTier One appears to be running, or local control UDP port cannot be bound",
       evs, []) ∧
      StartEvent.constructDemarc ∉ evs ∧ StartEvent.constructSwitch ∉ evs ∧
      StartEvent.constructTopology ∉ evs ∧ (∀ p, StartEvent.bindUdp p ∉ evs) ∧
      StartEvent.setSupernodes ∉ evs := by
  exact C8_single_instance_guard _ _ (Except.ok 1) false [] 0
    { secretStr := "SEC", publicStr := "PUB" }
    (fun p => if p = "identity.secret" then some "SEC"
              else if p = "identity.public" then some "PUB" else none)
    rfl rfl rfl

/-- Claim C10: if `terminate()` ran before the first loop test, `run()`
still executes the whole startup sequence — NodeConfig, demarcation,
multicaster, switch, topology, sysenv, UDP port binding, supernode
installation — runs zero loop iterations, and returns NORMAL_TERMINATION
with reason "normal termination". -/
theorem C10_terminate_before_run (C : Consts) (E : StartupEnv)
    (fp0 : Nat) (envs : List TickEnv) (lastCleanInit : Nat)
    (ident : Identity) (fs0 : FS) (i : Nat)
    (hid : identityInit E E.fs = Except.ok (ident, fs0))
    (htok : E.writeOk "authtoken.secret" = true)
    (hnc : E.nodeConfigOk = true)
    (hbind : (List.range 128).find? (fun j => E.bindOk (C.defaultUdpPort + j)) = some i) :
    ∃ evs, nodeRun C E (Except.ok fp0) true envs lastCleanInit =
      (ReasonForTermination.NODE_NORMAL_TERMINATION, "normal termination", evs, []) ∧
      StartEvent.constructNodeConfig ∈ evs ∧ StartEvent.constructDemarc ∈ evs ∧
      StartEvent.constructMulticaster ∈ evs ∧ StartEvent.constructSwitch ∈ evs ∧
      StartEvent.constructTopology ∈ evs ∧ StartEvent.constructSysEnv ∈ evs ∧
      StartEvent.bindUdp (C.defaultUdpPort + i) ∈ evs ∧
      StartEvent.setSupernodes ∈ evs := by
  unfold nodeRun startup
  rw [hid]
  cases htk : (fsErase (fsErase fs0 "status") "thisdeviceismine") "authtoken.secret" with
  | some t =>
    simp only [htk, hnc, if_true, hbind]
    refine ⟨_, rfl, ?_, ?_, ?_, ?_, ?_, ?_, ?_, ?_⟩ <;> simp
  | none =>
    simp only [htk, htok, if_true, hnc, hbind]
    refine ⟨_, rfl, ?_, ?_, ?_, ?_, ?_, ?_, ?_, ?_⟩ <;> simp

/-- Concrete run of `C10_terminate_before_run`: with `terminateNow`
already set, startup runs to completion (port 9993 bound, supernodes
installed) and the node exits normally with zero loop iterations. -/
theorem C10_terminate_before_run_witness :
    ∃ evs, nodeRun
      { sleepWakeDetectionThreshold := 2000, sleepWakeSettleTime := 5000,
        networkFingerprintCheckDelay := 5000, multicastLocalPollPeriod := 10000,
        multicastLikeAnnounceAllPeriod := 120000, pingCheckDelay := 7000,
        peerDirectPingDelay := 10000, dbCleanPeriod := 300000,
        minServiceLoopInterval := 100, defaultUdpPort := 9993 }
      { fs := fun p => if p = "identity.secret" then some "SEC"
                       else if p = "identity.public" then some "PUB" else none,
        writeOk := fun _ => true,
        idFromString := fun s => if s = "SEC" then
          some { secretStr := "SEC", publicStr := "PUB" } else none,
        generatedIdentity := { secretStr := "G", publicStr := "GP" },
        genToken := "tttttttttttttttttttttttt", nodeConfigOk := true,
        bindOk := fun _ => true, serviceStartOk := true }
      (Except.ok 1) true [] 0 =
      (ReasonForTermination.NODE_NORMAL_TERMINATION, "normal termination", evs, []) ∧
      StartEvent.constructNodeConfig ∈ evs ∧ StartEvent.constructDemarc ∈ evs ∧
      StartEvent.constructMulticaster ∈ evs ∧ StartEvent.constructSwitch ∈ evs ∧
      StartEvent.constructTopology ∈ evs ∧ StartEvent.constructSysEnv ∈ evs ∧
      StartEvent.bindUdp (9993 + 0) ∈ evs ∧
      StartEvent.setSupernodes ∈ evs := by
  exact C10_terminate_before_run _ _ 1 [] 0
    { secretStr := "SEC", publicStr := "PUB" }
    (fun p => if p = "identity.secret" then some "SEC"
              else if p = "identity.public" then some "PUB" else none)
    0 rfl rfl rfl rfl

end ZTNode
